import Mathlib

/-!
# The CONNECT gateway of `main1.go`: pump, handler, life cycle, dialer

A shallow embedding of the proxy core of `src/main1.go`.

* A value of Go's `int` is an `Int`; the product `chunkSize*1024` wraps
  around at the size of `int` on the platform, and `make` fails on a negative
  length and on a length the runtime does not allocate; a slice length is a
  `Nat`; a byte is a `UInt8`.
* A blocking call on a socket or on the tunnel is a function of an explicit
  environment: the client socket is the list of byte segments it will still
  deliver (followed by a read error), the tunnel is the list of messages it
  will still deliver (followed by a read error).
* A Go `panic` is an explicit outcome.
* A message counts as written on the tunnel once `NextWriter`, `Write` and
  `Close` have all succeeded; the code drops the error of `Close`.
* A call of `StartProxy` is taken up to its blocking receive in one step, and
  resumed in a second step once its channel is closed.
* The two directions of `PipeConn` run in two goroutines; each is embedded as
  a function of its own environment. The hijacked client connection is a TCP
  connection, whose `ReadFrom` carries out `io.CopyBuffer`, so `buf` is
  written by the client-to-tunnel loop only.
-/

namespace GoWSProxy

/-! ## Data model -/

/-- One byte of payload. -/
abbrev Byte := UInt8

/-- The record `Config` (lines 34-39). -/
structure Config where
  Port : Int
  Password : String
  WssHost : String
  ChunkSize : Int
deriving DecidableEq, Repr

/-- Constant `websocket.TextMessage`. -/
def TextMessage : Int := 1

/-- Constant `websocket.BinaryMessage`. -/
def BinaryMessage : Int := 2

/-- A tunnel message: the message type and the payload bytes. -/
structure Message where
  messageType : Int
  payload : List Byte
deriving DecidableEq, Repr

/-- How a direction of `PipeConn` came to its end. -/
inductive Ending where
  /-- Return after an error of `conn.Read` or `ws.NextReader`. -/
  | readError
  /-- Return after an error of `ws.NextWriter`. -/
  | nextWriterError
  /-- Return after an error of `w.Write` or `io.CopyBuffer`. -/
  | writeError
  /-- The program stops: `make` fails, or `io.CopyBuffer` panics on an empty
  buffer. -/
  | panicked
  /-- The loop has not returned within the iterations looked at. -/
  | running
deriving DecidableEq, Repr

/-- The size of Go's `int`, which the platform fixes: 32 or 64 bits. -/
inductive IntSize where
  | bits32
  | bits64
deriving DecidableEq, Repr

/-- The largest value of `int`. -/
def IntSize.maxInt : IntSize → Int
  | .bits32 => 2147483647
  | .bits64 => 9223372036854775807

/-- The value of an arithmetic result `x` in Go's `int`: `x` wrapped around
into the range from `-(maxInt + 1)` to `maxInt`. -/
def wrapInt (sz : IntSize) (x : Int) : Int :=
  (x + (sz.maxInt + 1)) % (2 * (sz.maxInt + 1)) - (sz.maxInt + 1)

/-- What a run depends on besides the code: the size of `int`, and the
greatest length for which `make([]byte, n)` returns (the allocation limit of
the runtime, or less when memory is short). -/
structure Runtime where
  intSize : IntSize
  allocLimit : Nat
deriving DecidableEq, Repr

/-- Allocation `make([]byte, n)`: the length of the new slice, or `none`
when the program stops instead, because `n` is negative or above what the
runtime allocates (`makeslice: len out of range`, or out of memory). -/
def makeBytes (rt : Runtime) (n : Int) : Option Nat :=
  if n < 0 ∨ rt.allocLimit < n.toNat then none else some n.toNat

/-- Line 133, `buf := make([]byte, chunkSize*1024)`: the length of `buf`, the
product being computed in `int`. -/
def PipeConn.buf (rt : Runtime) (chunkSize : Int) : Option Nat :=
  makeBytes rt (wrapInt rt.intSize (chunkSize * 1024))

/-! ## `PipeConn`, client to tunnel (lines 152-171) -/

/-- The client socket seen from `conn.Read`: the segments it still delivers,
in order; once the list is empty the next read returns an error. -/
abbrev ClientSocket := List (List Byte)

/-- Call `conn.Read(buf)` with `len(buf) = cap`: an error on an exhausted
socket, otherwise at most `cap` bytes of the first pending segment; what does
not fit stays pending. -/
def connRead (cap : Nat) : ClientSocket → Option (List Byte) × ClientSocket
  | [] => (none, [])
  | seg :: rest =>
    if seg.length ≤ cap then (some seg, rest)
    else (some (seg.take cap), seg.drop cap :: rest)

/-- What the tunnel does with one attempt to send a message (lines 159-169). -/
inductive WriterOutcome where
  /-- All of `NextWriter`, `Write` and `Close` succeed. -/
  | ok
  /-- The call `ws.NextWriter` returns an error. -/
  | nextWriterFails
  /-- The call `w.Write` returns an error. -/
  | writeFails
  /-- After `NextWriter` and `Write` succeeded, `w.Close()` returns an error:
  the message is not finalised. -/
  | closeFails
deriving DecidableEq, Repr

/-- Result of the client-to-tunnel loop: the data returned by the successful
calls of `conn.Read`, in order; the messages opened, written and finalised on
the tunnel, in order; and how the loop ended. -/
structure Sent where
  reads : List (List Byte)
  messages : List Message
  ending : Ending
deriving DecidableEq, Repr

/-- The `for` loop of lines 152-171 with `len(buf) = cap`. `tunnel k` is the
outcome of the `k`-th attempt to send a message, `k` counting the attempts
made so far. The first argument bounds the number of iterations: when it is
spent the loop is reported as still `running`. The error of `w.Close()` at
line 169 is dropped, so the loop goes on after it. -/
def clientToTunnelLoop (cap : Nat) (tunnel : Nat → WriterOutcome) :
    Nat → Nat → ClientSocket → Sent
  | 0, _, _ => ⟨[], [], .running⟩
  | fuel + 1, k, sock =>
    match connRead cap sock with
    | (none, _) => ⟨[], [], .readError⟩
    | (some data, sock') =>
      if data.length > 0 then
        match tunnel k with
        | .nextWriterFails => ⟨[data], [], .nextWriterError⟩
        | .writeFails => ⟨[data], [], .writeError⟩
        | .closeFails =>
          let s := clientToTunnelLoop cap tunnel fuel (k + 1) sock'
          ⟨data :: s.reads, s.messages, s.ending⟩
        | .ok =>
          let s := clientToTunnelLoop cap tunnel fuel (k + 1) sock'
          ⟨data :: s.reads, ⟨BinaryMessage, data⟩ :: s.messages, s.ending⟩
      else
        let s := clientToTunnelLoop cap tunnel fuel k sock'
        ⟨data :: s.reads, s.messages, s.ending⟩

/-- Direction B of `PipeConn(ws, conn, chunkSize)`: line 133 allocates `buf`,
lines 152-171 run the loop. -/
def PipeConn.clientToTunnel (rt : Runtime) (chunkSize : Int) (tunnel : Nat → WriterOutcome)
    (fuel : Nat) (sock : ClientSocket) : Sent :=
  match PipeConn.buf rt chunkSize with
  | none => ⟨[], [], .panicked⟩
  | some cap => clientToTunnelLoop cap tunnel fuel 0 sock

/-! ## `PipeConn`, tunnel to client (lines 134-151) -/

/-- Result of the tunnel-to-client goroutine: the bytes written to the client
socket, in order, how the goroutine ended, and whether the deferred
`conn.Close()` ran. -/
structure Delivered where
  toClient : List Byte
  ending : Ending
  connClosed : Bool
deriving DecidableEq, Repr

/-- The `for` loop of lines 136-150 with `len(buf) = cap`. The list holds the
messages `ws.NextReader` still delivers; on the empty list it returns an
error. `room` is the number of bytes the client socket still accepts before a
write fails, `none` when no write ever fails. -/
def tunnelToClientLoop (cap : Nat) : Option Nat → List Message → List Byte × Ending
  | _, [] => ([], .readError)
  | room, m :: rest =>
    if m.messageType ≠ BinaryMessage then
      -- io.Copy(io.Discard, r); continue
      tunnelToClientLoop cap room rest
    else if cap = 0 then
      -- io.CopyBuffer panics on a buffer of length zero
      ([], .panicked)
    else
      match room with
      | none =>
        let r := tunnelToClientLoop cap none rest
        (m.payload ++ r.1, r.2)
      | some n =>
        if m.payload.length ≤ n then
          let r := tunnelToClientLoop cap (some (n - m.payload.length)) rest
          (m.payload ++ r.1, r.2)
        else (m.payload.take n, .writeError)

/-- Direction A of `PipeConn(ws, conn, chunkSize)`: line 133 allocates `buf`,
line 134 starts the goroutine of lines 135-150, whose deferred `conn.Close()`
runs on every exit. When the allocation fails the goroutine never starts. -/
def PipeConn.tunnelToClient (rt : Runtime) (chunkSize : Int) (room : Option Nat)
    (msgs : List Message) : Delivered :=
  match PipeConn.buf rt chunkSize with
  | none => ⟨[], .panicked, false⟩
  | some cap =>
    let r := tunnelToClientLoop cap room msgs
    ⟨r.1, r.2, true⟩

/-! ## The handler built by `StartProxy` (lines 200-219) -/

/-- A connection handle (`net.Conn`). -/
abbrev Conn := Nat

/-- The parts of `*http.Request` the handler reads. -/
structure Request where
  Method : String
  Host : String
deriving DecidableEq, Repr

/-- Constant `http.MethodConnect`. -/
def MethodConnect : String := "CONNECT"

/-- Constant `http.StatusInternalServerError`. -/
def StatusInternalServerError : Nat := 500

/-- Constant `http.StatusServiceUnavailable`. -/
def StatusServiceUnavailable : Nat := 503

/-- What the response writer `w` offers when asked to hijack. -/
inductive Hijacking where
  /-- The assertion `w.(http.Hijacker)` fails. -/
  | unsupported
  /-- The call `hijacker.Hijack()` returns an error with this text. -/
  | fails (err : String)
  /-- The call `hijacker.Hijack()` returns the client connection. -/
  | succeeds (client : Conn)
deriving DecidableEq, Repr

/-- The calls the handler makes that can be observed from outside, with their
arguments. -/
inductive Action where
  /-- Call `w.WriteHeader(status)`. -/
  | writeHeader (status : Nat)
  /-- Call `http.Error(w, text, status)`. -/
  | httpError (text : String) (status : Nat)
  /-- Call `hijacker.Hijack()`. -/
  | hijack
  /-- Call `client.Write(bytes)`. -/
  | clientWrite (client : Conn) (bytes : List Byte)
  /-- Call `appendLog(msg)`. -/
  | appendLog (msg : String)
  /-- Statement `go SetUpTunnel(client, target, c)`. -/
  | goSetUpTunnel (client : Conn) (target : String) (c : Config)
deriving DecidableEq, Repr

/-- Function `Debug` (lines 104-108): the messages it passes to `appendLog`,
one for a non-nil error. -/
def Debug : Option String → List String
  | none => []
  | some err => ["[ERROR] " ++ err]

/-- The bytes of the literal written at line 216. -/
def connectionEstablished : List Byte :=
  "HTTP/1.1 200 Connection Established\r\n\r\n".toUTF8.data.toList

/-- The closure of lines 200-219, which captures `c`: the calls it makes, in
order, on the request `r` with the response writer `w`. -/
def StartProxy.handler (c : Config) (w : Hijacking) (r : Request) : List Action :=
  if r.Method ≠ MethodConnect then
    [.writeHeader StatusServiceUnavailable]
  else
    match w with
    | .unsupported => [.httpError "不支持 Hijacking" StatusInternalServerError]
    | .fails err =>
      [.hijack] ++ (Debug (some err)).map .appendLog ++
        [.httpError err StatusServiceUnavailable]
    | .succeeds client =>
      [.hijack, .clientWrite client connectionEstablished,
        .appendLog ("访问: " ++ r.Host), .goSetUpTunnel client r.Host c]

/-- The byte slices passed to `client.Write`, in order. -/
def clientWrites : List Action → List (List Byte)
  | [] => []
  | .clientWrite _ bytes :: rest => bytes :: clientWrites rest
  | _ :: rest => clientWrites rest

/-- The targets passed to `SetUpTunnel`, in order. -/
def tunnelTargets : List Action → List String
  | [] => []
  | .goSetUpTunnel _ target _ :: rest => target :: tunnelTargets rest
  | _ :: rest => tunnelTargets rest

/-- Whether the action starts `SetUpTunnel`. -/
def Action.startsTunnel : Action → Bool
  | .goSetUpTunnel _ _ _ => true
  | _ => false

/-- The status codes sent with `w.WriteHeader` or `http.Error`, in order. -/
def statuses : List Action → List Nat
  | [] => []
  | .writeHeader status :: rest => status :: statuses rest
  | .httpError _ status :: rest => status :: statuses rest
  | _ :: rest => statuses rest

/-! ## `StartProxy` and `StopProxy` (lines 197-239) -/

/-- The `*http.Server` of lines 220-223: its address, the configuration its
handler captures, and whether its listening socket is bound. -/
structure Server where
  Addr : String
  config : Config
  listening : Bool
deriving DecidableEq, Repr

/-- One call of `StartProxy`: the channel it receives from at line 230, its
server, and whether it has got past line 230 and returned. -/
structure Activation where
  stop : Nat
  server : Server
  returned : Bool
deriving DecidableEq, Repr

/-- The state of the process that `StartProxy` and `StopProxy` act on: the
package-level variable `proxyStop` (`none` is `nil`, otherwise a channel), the
number of channels made so far (a channel is its number), the channels that
have been closed, the calls of `StartProxy` made so far, and the log. -/
structure Proc where
  proxyStop : Option Nat
  chans : Nat
  closed : List Nat
  activations : List Activation
  log : List String
deriving DecidableEq, Repr

/-- The process before any call: `proxyStop` is `nil`. -/
def Proc.init : Proc := ⟨none, 0, [], [], []⟩

/-- Lines 198-230 of `StartProxy(c)`, up to the receive from `proxyStop`, on
which the call blocks. `listen` is the error with which
`server.ListenAndServe()` comes back at once, `none` when it binds the socket
and serves; the error is logged through `Debug`. -/
def StartProxy (c : Config) (listen : Option String) (p : Proc) : Proc :=
  let ch := p.chans
  let addr := ":" ++ toString c.Port
  { proxyStop := some ch
    chans := p.chans + 1
    closed := p.closed
    activations := p.activations ++ [⟨ch, ⟨addr, c, listen.isNone⟩, false⟩]
    log := p.log ++
      ["OTC友情提醒 TG 频道 @soqunla HTTP代理启动，端口: " ++ toString c.Port] ++
      Debug listen }

/-- Lines 231-232 for one call of `StartProxy`: once the channel it receives
from is closed, it shuts its server down and returns. -/
def Activation.resume (closed : List Nat) (a : Activation) : Activation :=
  if !a.returned && closed.contains a.stop then
    ⟨a.stop, ⟨a.server.Addr, a.server.config, false⟩, true⟩
  else a

/-- Every blocked call of `StartProxy` whose channel is closed runs lines
231-232, each logging that the proxy has stopped. -/
def Proc.resume (p : Proc) : Proc :=
  { p with
    activations := p.activations.map (Activation.resume p.closed)
    log := p.log ++
      (p.activations.filter (fun a => !a.returned && p.closed.contains a.stop)).map
        (fun _ => "代理已停止") }

/-- Function `StopProxy` (lines 235-239). `none` is the panic of `close` on a
channel that is already closed. -/
def StopProxy (p : Proc) : Option Proc :=
  match p.proxyStop with
  | none => some p
  | some ch =>
    if p.closed.contains ch then none
    else some { p with closed := ch :: p.closed }

/-! ## `utlsDialTLSContext` (lines 110-130) -/

/-- A `time.Time`: the zero value `time.Time{}`, which as a deadline means no
deadline, or an instant. -/
inductive Time where
  | zero
  | instant (t : Nat)
deriving DecidableEq, Repr

/-- The outcome of `d.DialContext(ctx, network, addr)`. -/
inductive TCPDial where
  | fails (err : String)
  | connected (tcp : Conn)
deriving DecidableEq, Repr

/-- What `utlsDialTLSContext` meets: the outcome of the TCP dial, the host
part of `addr` when `net.SplitHostPort` succeeds, the deadline of the context
when it has one, and the error of the handshake when it fails. -/
structure DialWorld where
  dial : TCPDial
  splitHost : Option String
  ctxDeadline : Option Time
  handshake : Option String
deriving DecidableEq, Repr

/-- The `utls.ClientHelloID` values named here. -/
inductive ClientHelloID where
  | HelloGolang
  | HelloRandomized
deriving DecidableEq, Repr

/-- The connection made by `utls.UClient` over `tcp`: the server name of its
configuration, its hello, whether its handshake has completed, and its
deadline. -/
structure UConn where
  tcp : Conn
  serverName : String
  hello : ClientHelloID
  secured : Bool
  deadline : Time
deriving DecidableEq, Repr

/-- Function `utls.UClient(tcp, &utls.Config{ServerName: serverName}, hello)`:
a connection that has not shaken hands and has no deadline. -/
def UClient (tcp : Conn) (serverName : String) (hello : ClientHelloID) : UConn :=
  ⟨tcp, serverName, hello, false, .zero⟩

/-- Method `uconn.SetDeadline(t)`: the connection with deadline `t`. The code
drops the error the call returns. -/
def UConn.SetDeadline (u : UConn) (t : Time) : UConn :=
  ⟨u.tcp, u.serverName, u.hello, u.secured, t⟩

/-- Method `uconn.Handshake()` when it succeeds: the connection is secured. -/
def UConn.Handshake (u : UConn) : UConn :=
  ⟨u.tcp, u.serverName, u.hello, true, u.deadline⟩

/-- The calls `utlsDialTLSContext` makes, with their arguments. -/
inductive DialAction where
  | dialContext (network addr : String)
  | uClient (tcp : Conn) (serverName : String) (hello : ClientHelloID)
  | setDeadline (t : Time)
  | handshake
  | closeTCP (tcp : Conn)
deriving DecidableEq, Repr

/-- What `utlsDialTLSContext` returns (`conn = none` is `nil`, `err = none` is
`nil`), together with the calls it made, in order. -/
structure DialResult where
  conn : Option UConn
  err : Option String
  actions : List DialAction
deriving DecidableEq, Repr

/-- Function `utlsDialTLSContext` (lines 110-130). -/
def utlsDialTLSContext (w : DialWorld) (network addr : String) : DialResult :=
  match w.dial with
  | .fails err => ⟨none, some err, [.dialContext network addr]⟩
  | .connected tcpConn =>
    let host := match w.splitHost with
      | some h => h
      | none => addr
    let uconn := UClient tcpConn host .HelloRandomized
    let opened : List DialAction :=
      [.dialContext network addr, .uClient tcpConn host .HelloRandomized]
    let bounded : UConn × List DialAction := match w.ctxDeadline with
      | some dl => (uconn.SetDeadline dl, [.setDeadline dl])
      | none => (uconn, [])
    match w.handshake with
    | some err =>
      ⟨none, some err, opened ++ bounded.2 ++ [.handshake, .closeTCP tcpConn]⟩
    | none =>
      ⟨some (bounded.1.Handshake.SetDeadline .zero), none,
        opened ++ bounded.2 ++ [.handshake, .setDeadline .zero]⟩

/-! # Theorems -/

/-! ## The pump -/

/-- A value within the range of `int` is not changed by wrapping. -/
theorem wrapInt_of_range (sz : IntSize) (x : Int) (h0 : 0 ≤ x) (h1 : x ≤ sz.maxInt) :
    wrapInt sz x = x := by
  cases sz <;> simp only [wrapInt, IntSize.maxInt] at * <;> omega

/-- Wrapping a value that is not negative never makes it greater. -/
theorem wrapInt_le (sz : IntSize) (x : Int) (h0 : 0 ≤ x) : wrapInt sz x ≤ x := by
  cases sz <;> simp only [wrapInt, IntSize.maxInt] at * <;> omega

/-- A chunk size whose buffer length is positive in `int` and within what the
runtime allocates gives a buffer of that length. -/
theorem buf_of_wrap (rt : Runtime) (c : Int) (hpos : 0 < wrapInt rt.intSize (c * 1024))
    (halloc : wrapInt rt.intSize (c * 1024) ≤ rt.allocLimit) :
    PipeConn.buf rt c = some (wrapInt rt.intSize (c * 1024)).toNat := by
  unfold PipeConn.buf makeBytes
  rw [if_neg (by omega)]

/-- A positive chunk size whose buffer length fits `int` and is allocated gives
a buffer of `chunkSize*1024` bytes. -/
theorem buf_of_fits (rt : Runtime) (c : Int) (hc : 0 < c)
    (hfit : c * 1024 ≤ rt.intSize.maxInt) (halloc : c * 1024 ≤ rt.allocLimit) :
    PipeConn.buf rt c = some (c * 1024).toNat := by
  have hw := wrapInt_of_range rt.intSize (c * 1024) (by omega) hfit
  rw [buf_of_wrap rt c (by omega) (by omega), hw]

/-- The buffer of a positive chunk size never holds more than `chunkSize*1024`
bytes. -/
theorem buf_le (rt : Runtime) (c : Int) (hc : 0 < c) (cap : Nat)
    (h : PipeConn.buf rt c = some cap) : (cap : Int) ≤ c * 1024 := by
  have hw := wrapInt_le rt.intSize (c * 1024) (by omega)
  unfold PipeConn.buf makeBytes at h
  split at h
  · simp at h
  · simp only [Option.some.injEq] at h
    omega

/-- A read never returns more bytes than the buffer holds. -/
theorem connRead_length_le (cap : Nat) (sock sock' : ClientSocket) (data : List Byte)
    (h : connRead cap sock = (some data, sock')) : data.length ≤ cap := by
  cases sock with
  | nil => simp [connRead] at h
  | cons seg rest =>
    by_cases hseg : seg.length ≤ cap
    · simp only [connRead, hseg, if_true, Prod.mk.injEq, Option.some.injEq] at h
      rw [← h.1]; exact hseg
    · simp only [connRead, hseg, if_false, Prod.mk.injEq, Option.some.injEq] at h
      rw [← h.1, List.length_take]; omega

/-- Every message the loop writes is binary and carries between one byte and
one buffer of bytes. -/
theorem clientToTunnelLoop_messages (cap : Nat) (tunnel : Nat → WriterOutcome) :
    ∀ (fuel k : Nat) (sock : ClientSocket),
      ∀ m ∈ (clientToTunnelLoop cap tunnel fuel k sock).messages,
        m.messageType = BinaryMessage ∧ 1 ≤ m.payload.length ∧ m.payload.length ≤ cap := by
  intro fuel
  induction fuel with
  | zero => intro k sock m hm; simp [clientToTunnelLoop] at hm
  | succ n ih =>
    intro k sock m hm
    unfold clientToTunnelLoop at hm
    split at hm
    · simp at hm
    · rename_i data sock' hread
      have hle := connRead_length_le cap sock sock' data hread
      split at hm
      · rename_i hpos
        split at hm
        · simp at hm
        · simp at hm
        · exact ih _ _ m hm
        · simp only [List.mem_cons] at hm
          rcases hm with rfl | hm
          · exact ⟨rfl, hpos, hle⟩
          · exact ih _ _ m hm
      · exact ih _ _ m hm

/-- While no send fails, the payloads written are the non-empty reads. -/
theorem clientToTunnelLoop_payloads (cap : Nat) (tunnel : Nat → WriterOutcome)
    (hok : ∀ k, tunnel k = .ok) :
    ∀ (fuel k : Nat) (sock : ClientSocket),
      (clientToTunnelLoop cap tunnel fuel k sock).messages.map (·.payload) =
        (clientToTunnelLoop cap tunnel fuel k sock).reads.filter (fun r => decide (0 < r.length)) := by
  intro fuel
  induction fuel with
  | zero => intro k sock; simp [clientToTunnelLoop]
  | succ n ih =>
    intro k sock
    unfold clientToTunnelLoop
    split
    · simp
    · rename_i data sock' hread
      split
      · rename_i hpos
        rw [hok k]
        simp [ih, hpos]
      · rename_i hpos
        simp [ih, hpos]

/-- Dropping the empty reads does not change the bytes read. -/
theorem filter_nonempty_join (l : List (List Byte)) :
    (l.filter (fun r => decide (0 < r.length))).flatten = l.flatten := by
  induction l with
  | nil => rfl
  | cons a t ih =>
    by_cases h : 0 < a.length
    · simp [List.filter_cons, h, ih]
    · have : a = [] := by
        cases a with
        | nil => rfl
        | cons x xs => simp at h
      subst this
      simp [List.filter_cons, ih]

/-- When every pending segment fits the buffer, each read returns one segment
and the loop returns at the read error that follows the last one. -/
theorem clientToTunnelLoop_fitting (cap : Nat) (tunnel : Nat → WriterOutcome)
    (hok : ∀ k, tunnel k = .ok) :
    ∀ (reads : List (List Byte)) (fuel k : Nat), (∀ r ∈ reads, r.length ≤ cap) →
      reads.length < fuel →
      (clientToTunnelLoop cap tunnel fuel k reads).reads = reads ∧
      (clientToTunnelLoop cap tunnel fuel k reads).ending = .readError := by
  intro reads
  induction reads with
  | nil =>
    intro fuel k _ hf
    obtain ⟨n, rfl⟩ : ∃ n, fuel = n + 1 := ⟨fuel - 1, by simp at hf; omega⟩
    simp [clientToTunnelLoop, connRead]
  | cons seg rest ih =>
    intro fuel k hfit hf
    obtain ⟨n, rfl⟩ : ∃ n, fuel = n + 1 := ⟨fuel - 1, by simp at hf; omega⟩
    have hseg : seg.length ≤ cap := hfit seg (List.mem_cons_self _ _)
    have hrest : ∀ r ∈ rest, r.length ≤ cap := fun r hr => hfit r (List.mem_cons_of_mem _ hr)
    have hn : rest.length < n := by simp at hf; omega
    unfold clientToTunnelLoop
    simp only [connRead, hseg, if_true]
    split
    · rw [hok k]
      simp [ih n (k + 1) hrest hn]
    · simp [ih n k hrest hn]

/-- A socket that holds `data` in full: the loop cuts it into buffers. Here
`j` is the number of full buffers that precede the last message. -/
theorem clientToTunnelLoop_greedy (cap : Nat) (tunnel : Nat → WriterOutcome)
    (hok : ∀ k, tunnel k = .ok) :
    ∀ (j : Nat) (data : List Byte) (fuel k : Nat),
      j * cap < data.length → data.length ≤ (j + 1) * cap → j + 2 ≤ fuel →
      (clientToTunnelLoop cap tunnel fuel k [data]).ending = .readError ∧
      (clientToTunnelLoop cap tunnel fuel k [data]).messages.length = j + 1 ∧
      (∀ m ∈ (clientToTunnelLoop cap tunnel fuel k [data]).messages.dropLast,
        m.payload.length = cap) ∧
      ((clientToTunnelLoop cap tunnel fuel k [data]).messages.map (·.payload)).flatten = data := by
  intro j
  induction j with
  | zero =>
    intro data fuel k hlo hhi hf
    obtain ⟨n, rfl⟩ : ∃ n, fuel = n + 2 := ⟨fuel - 2, by omega⟩
    have hfit : data.length ≤ cap := by omega
    have hpos : 0 < data.length := by omega
    simp [clientToTunnelLoop, connRead, hfit, hpos, hok]
  | succ j ih =>
    intro data fuel k hlo hhi hf
    obtain ⟨n, rfl⟩ : ∃ n, fuel = n + 1 := ⟨fuel - 1, by omega⟩
    have hcap : 0 < cap := by
      rcases Nat.eq_zero_or_pos cap with h | h
      · subst h; rw [Nat.mul_zero] at hlo hhi; omega
      · exact h
    have hlen : (data.drop cap).length = data.length - cap := List.length_drop _ _
    rw [Nat.succ_mul] at hlo
    rw [Nat.succ_mul, Nat.succ_mul] at hhi
    have hlo' : j * cap < (data.drop cap).length := by rw [hlen]; omega
    have hhi' : (data.drop cap).length ≤ (j + 1) * cap := by
      rw [hlen, Nat.succ_mul]; omega
    have hbig : ¬ data.length ≤ cap := by omega
    have htake : (data.take cap).length = cap := by
      rw [List.length_take]; omega
    obtain ⟨h1, h2, h3, h4⟩ := ih (data.drop cap) n (k + 1) hlo' hhi' (by omega)
    have hne : (clientToTunnelLoop cap tunnel n (k + 1) [data.drop cap]).messages ≠ [] := by
      intro h; rw [h] at h2; simp at h2
    unfold clientToTunnelLoop
    simp only [connRead, hbig, if_false, htake, hcap, gt_iff_lt, if_true, hok]
    refine ⟨h1, by simp [h2], ?_, ?_⟩
    · intro m hm
      rw [List.dropLast_cons_of_ne_nil hne, List.mem_cons] at hm
      rcases hm with rfl | hm
      · exact htake
      · exact h3 m hm
    · simp only [List.map_cons, List.flatten_cons, h4, List.take_append_drop]

/-- The loop on a socket that holds `data` in full, for every length. -/
theorem clientToTunnelLoop_slices (cap : Nat) (hcap : 0 < cap) (tunnel : Nat → WriterOutcome)
    (hok : ∀ k, tunnel k = .ok) (data : List Byte) (fuel : Nat)
    (hf : (data.length + cap - 1) / cap + 2 ≤ fuel) :
    (clientToTunnelLoop cap tunnel fuel 0 [data]).ending = .readError ∧
    (clientToTunnelLoop cap tunnel fuel 0 [data]).messages.length =
      (data.length + cap - 1) / cap ∧
    (∀ m ∈ (clientToTunnelLoop cap tunnel fuel 0 [data]).messages.dropLast,
      m.payload.length = cap) ∧
    ((clientToTunnelLoop cap tunnel fuel 0 [data]).messages.map (·.payload)).flatten = data := by
  rcases Nat.eq_zero_or_pos data.length with h0 | hpos
  · have hnil : data = [] := List.length_eq_zero.mp h0
    subst hnil
    have hz : (([] : List Byte).length + cap - 1) / cap = 0 :=
      Nat.div_eq_of_lt (by simp; omega)
    rw [hz] at hf ⊢
    obtain ⟨n, rfl⟩ : ∃ n, fuel = n + 2 := ⟨fuel - 2, by omega⟩
    simp [clientToTunnelLoop, connRead]
  · have hlo : (data.length - 1) / cap * cap ≤ data.length - 1 := Nat.div_mul_le_self _ _
    have hhi : data.length - 1 < (data.length - 1) / cap * cap + cap :=
      Nat.lt_div_mul_add hcap
    have e1 : ((data.length - 1) / cap + 1) * cap = (data.length - 1) / cap * cap + cap :=
      Nat.succ_mul _ _
    have hdiv : (data.length + cap - 1) / cap = (data.length - 1) / cap + 1 := by
      apply Nat.div_eq_of_lt_le
      · rw [e1]; omega
      · rw [Nat.succ_mul, e1]; omega
    rw [hdiv] at hf ⊢
    exact clientToTunnelLoop_greedy cap tunnel hok ((data.length - 1) / cap) data fuel 0
      (by omega) (by rw [e1]; omega) (by omega)

/-- The tunnel-to-client loop with a non-empty buffer and a client socket that
accepts every write. -/
theorem tunnelToClientLoop_unbounded (cap : Nat) (hcap : 0 < cap) :
    ∀ msgs : List Message,
      tunnelToClientLoop cap none msgs =
        (((msgs.filter (fun m => decide (m.messageType = BinaryMessage))).map
          (·.payload)).flatten, Ending.readError) := by
  intro msgs
  induction msgs with
  | nil => simp [tunnelToClientLoop]
  | cons m rest ih =>
    unfold tunnelToClientLoop
    by_cases hb : m.messageType = BinaryMessage
    · have : cap ≠ 0 := by omega
      simp [hb, this, ih]
    · simp [hb, ih]

/-- The payloads written are always a subsequence of the non-empty reads: a
read of zero bytes never produces a message. -/
theorem clientToTunnelLoop_sublist (cap : Nat) (tunnel : Nat → WriterOutcome) :
    ∀ (fuel k : Nat) (sock : ClientSocket),
      ((clientToTunnelLoop cap tunnel fuel k sock).messages.map (·.payload)).Sublist
        ((clientToTunnelLoop cap tunnel fuel k sock).reads.filter
          (fun r => decide (0 < r.length))) := by
  intro fuel
  induction fuel with
  | zero => intro k sock; simp [clientToTunnelLoop]
  | succ n ih =>
    intro k sock
    unfold clientToTunnelLoop
    split
    · simp
    · rename_i data sock' hread
      split
      · rename_i hpos
        split
        · simp
        · simp
        · simpa [hpos] using (ih (k + 1) sock').cons data
        · simpa [hpos] using ih (k + 1) sock'
      · rename_i hpos
        simpa [hpos] using ih k sock'

/-- C1 as stated fails in two ways. On a 64-bit platform the chunk size 2^53
makes `chunkSize*1024` wrap to a negative length, so `make` panics and nothing
is read or sent. And with chunk size 1, when `NextWriter` and `Write` succeed
but `w.Close()` fails, the two bytes read are in no finalised message. -/
theorem pipeConn_clientToTunnel_drops :
    PipeConn.clientToTunnel ⟨.bits64, 281474976710656⟩ 9007199254740992
      (fun _ => WriterOutcome.ok) 4 [[1, 2]] = ⟨[], [], .panicked⟩ ∧
    PipeConn.clientToTunnel ⟨.bits64, 281474976710656⟩ 1
      (fun _ => WriterOutcome.closeFails) 4 [[1, 2]] = ⟨[[1, 2]], [], .readError⟩ ∧
    ((PipeConn.clientToTunnel ⟨.bits64, 281474976710656⟩ 1
      (fun _ => WriterOutcome.closeFails) 4 [[1, 2]]).messages.map (·.payload)).flatten ≠
      (PipeConn.clientToTunnel ⟨.bits64, 281474976710656⟩ 1
        (fun _ => WriterOutcome.closeFails) 4 [[1, 2]]).reads.flatten := by
  decide

/-- C1, amended. Client-to-tunnel round trip of `PipeConn`: for a chunk size
`c > 0` whose buffer length `c * 1024` fits `int` and is allocated, a finite
sequence of successful client reads of at most `c * 1024` bytes each that is
followed by a read error, and a tunnel on which every `NextWriter`, `Write`
and `Close` succeeds, the loop returns at the read error, the reads it made
are the given ones, the payloads of the messages written, concatenated in the
order written, are the bytes read in the order read (they are the non-empty
reads, one message each), and every message written is binary. -/
theorem pipeConn_clientToTunnel_roundtrip (rt : Runtime) (c : Int) (hc : 0 < c)
    (hfit : c * 1024 ≤ rt.intSize.maxInt) (halloc : c * 1024 ≤ rt.allocLimit)
    (reads : List (List Byte)) (hreads : ∀ r ∈ reads, (r.length : Int) ≤ c * 1024)
    (tunnel : Nat → WriterOutcome) (hok : ∀ k, tunnel k = .ok)
    (fuel : Nat) (hfuel : reads.length < fuel) :
    (PipeConn.clientToTunnel rt c tunnel fuel reads).ending = .readError ∧
    (PipeConn.clientToTunnel rt c tunnel fuel reads).reads = reads ∧
    ((PipeConn.clientToTunnel rt c tunnel fuel reads).messages.map (·.payload)).flatten =
      reads.flatten ∧
    (PipeConn.clientToTunnel rt c tunnel fuel reads).messages.map (·.payload) =
      reads.filter (fun r => decide (0 < r.length)) ∧
    (∀ m ∈ (PipeConn.clientToTunnel rt c tunnel fuel reads).messages,
      m.messageType = BinaryMessage) := by
  have hfits : ∀ r ∈ reads, r.length ≤ (c * 1024).toNat := by
    intro r hr
    have := hreads r hr
    omega
  obtain ⟨hr, he⟩ :=
    clientToTunnelLoop_fitting (c * 1024).toNat tunnel hok reads fuel 0 hfits hfuel
  have hp := clientToTunnelLoop_payloads (c * 1024).toNat tunnel hok fuel 0 reads
  rw [hr] at hp
  unfold PipeConn.clientToTunnel
  rw [buf_of_fits rt c hc hfit halloc]
  refine ⟨he, hr, ?_, hp, ?_⟩
  · rw [hp, filter_nonempty_join]
  · intro m hm
    exact (clientToTunnelLoop_messages _ tunnel fuel 0 reads m hm).1

/-- Witness of C1, amended: 64 bits, chunk size 1, the reads `[1, 2]`, nothing,
`[3]`. -/
theorem pipeConn_clientToTunnel_roundtrip_witness :
    (0 : Int) < 1 ∧
    (PipeConn.clientToTunnel ⟨.bits64, 281474976710656⟩ 1 (fun _ => WriterOutcome.ok) 4
      [[1, 2], [], [3]]).ending = .readError ∧
    (PipeConn.clientToTunnel ⟨.bits64, 281474976710656⟩ 1 (fun _ => WriterOutcome.ok) 4
      [[1, 2], [], [3]]).reads = [[1, 2], [], [3]] ∧
    ((PipeConn.clientToTunnel ⟨.bits64, 281474976710656⟩ 1 (fun _ => WriterOutcome.ok) 4
      [[1, 2], [], [3]]).messages.map (·.payload)).flatten = [1, 2, 3] :=
  have h := pipeConn_clientToTunnel_roundtrip ⟨.bits64, 281474976710656⟩ 1 (by decide)
    (by decide) (by decide) [[1, 2], [], [3]] (by decide)
    (fun _ => WriterOutcome.ok) (fun _ => rfl) 4 (by decide)
  ⟨by decide, h.1, h.2.1, h.2.2.1⟩

/-- C2, amended. Tunnel-to-client filtering of `PipeConn`: for a chunk size
whose buffer length `chunkSize*1024`, as computed in `int`, is at least 1 and
is allocated, a finite sequence of tunnel messages that is followed by a
tunnel read error, and a client socket on which every write succeeds, the
goroutine returns at the read error (closing the client socket) and the bytes
written to the client are the payloads of exactly the binary messages,
concatenated in arrival order; in particular a binary message that follows a
non-binary one is delivered in full. -/
theorem pipeConn_tunnelToClient_filters (rt : Runtime) (c : Int)
    (hpos : 0 < wrapInt rt.intSize (c * 1024))
    (halloc : wrapInt rt.intSize (c * 1024) ≤ rt.allocLimit) (msgs : List Message) :
    PipeConn.tunnelToClient rt c none msgs =
      ⟨((msgs.filter (fun m => decide (m.messageType = BinaryMessage))).map
          (·.payload)).flatten, .readError, true⟩ ∧
    (∀ t b : Message, t.messageType ≠ BinaryMessage → b.messageType = BinaryMessage →
      (PipeConn.tunnelToClient rt c none [t, b]).toClient = b.payload) := by
  have hcap : 0 < (wrapInt rt.intSize (c * 1024)).toNat := by omega
  unfold PipeConn.tunnelToClient
  rw [buf_of_wrap rt c hpos halloc]
  refine ⟨by simp [tunnelToClientLoop_unbounded _ hcap], ?_⟩
  intro t b ht hb
  simp [tunnelToClientLoop_unbounded _ hcap, ht, hb]

/-- Witness of C2, amended: 64 bits, chunk size 64, a text message followed by
a binary one. -/
theorem pipeConn_tunnelToClient_filters_witness :
    0 < wrapInt IntSize.bits64 (64 * 1024) ∧
    wrapInt IntSize.bits64 (64 * 1024) ≤ (281474976710656 : Nat) ∧
    PipeConn.tunnelToClient ⟨.bits64, 281474976710656⟩ 64 none
      [⟨TextMessage, [9]⟩, ⟨BinaryMessage, [1, 2]⟩] = ⟨[1, 2], .readError, true⟩ :=
  ⟨by decide, by decide, by
    simpa [TextMessage, BinaryMessage] using
      (pipeConn_tunnelToClient_filters ⟨.bits64, 281474976710656⟩ 64 (by decide) (by decide)
        [⟨TextMessage, [9]⟩, ⟨BinaryMessage, [1, 2]⟩]).1⟩

/-- C2 as stated fails for the chunk size 0, which `StartProxy` lets through:
`buf` is empty, and on the first binary message `io.CopyBuffer` panics, so the
payload of the binary message never reaches the client. On a 64-bit platform
the same happens for the chunk size 2^54, whose buffer length wraps to 0. -/
theorem pipeConn_tunnelToClient_zero_chunk :
    PipeConn.tunnelToClient ⟨.bits64, 281474976710656⟩ 0 none
      [⟨TextMessage, [9]⟩, ⟨BinaryMessage, [1, 2]⟩] = ⟨[], .panicked, true⟩ ∧
    (PipeConn.tunnelToClient ⟨.bits64, 281474976710656⟩ 0 none
      [⟨TextMessage, [9]⟩, ⟨BinaryMessage, [1, 2]⟩]).toClient ≠
      (([(⟨TextMessage, [9]⟩ : Message), ⟨BinaryMessage, [1, 2]⟩].filter
        (fun m => decide (m.messageType = BinaryMessage))).map (·.payload)).flatten ∧
    PipeConn.tunnelToClient ⟨.bits64, 281474976710656⟩ 18014398509481984 none
      [⟨TextMessage, [9]⟩, ⟨BinaryMessage, [1, 2]⟩] = ⟨[], .panicked, true⟩ := by
  decide

/-- C9 as stated fails in two ways. On a 64-bit platform the chunk size
2^54 + 1 gives a buffer of 1024 bytes, so 2000 bytes go out as 2 messages
where the claim counts 1. And with chunk size 1, when `NextWriter` fails, 3
bytes go out as no message where the claim counts 1. -/
theorem pipeConn_frame_count_differs :
    (PipeConn.clientToTunnel ⟨.bits64, 281474976710656⟩ 18014398509481985
      (fun _ => WriterOutcome.ok) 4 [List.replicate 2000 0]).messages.length = 2 ∧
    (List.replicate 2000 (0 : Byte)).length ⌈/⌉ ((18014398509481985 : Int) * 1024).toNat = 1 ∧
    (PipeConn.clientToTunnel ⟨.bits64, 281474976710656⟩ 1
      (fun _ => WriterOutcome.nextWriterFails) 4 [[1, 2, 3]]).messages.length = 0 ∧
    ([1, 2, 3] : List Byte).length ⌈/⌉ ((1 : Int) * 1024).toNat = 1 := by
  have hbuf : PipeConn.buf ⟨.bits64, 281474976710656⟩ 18014398509481985 = some 1024 := by
    decide
  refine ⟨?_, ?_, by decide, by decide⟩
  · unfold PipeConn.clientToTunnel
    rw [hbuf]
    have h := (clientToTunnelLoop_slices 1024 (by decide) (fun _ => WriterOutcome.ok)
      (fun _ => rfl) (List.replicate 2000 0) 4 (by
        rw [List.length_replicate])).2.1
    simp only [h, List.length_replicate]
  · rw [List.length_replicate, Nat.ceilDiv_eq_add_pred_div]; decide

/-- C9, amended. Frame slicing of `PipeConn`, client to tunnel, for a chunk
size `c > 0`. Whatever the platform, the socket and the tunnel do, every
message written is binary and carries at least 1 and at most `c * 1024` bytes,
and the payloads written are a subsequence of the non-empty reads (a read of 0
bytes produces no message). When moreover `c * 1024` fits `int` and is
allocated, the socket holds `data` in full, so that each read fills the buffer
while data remains, and every `NextWriter`, `Write` and `Close` succeeds, the
loop returns at the read error after writing exactly
`⌈data.length / (c * 1024)⌉` messages, all but the last of exactly `c * 1024`
bytes, whose payloads concatenate to `data`. -/
theorem pipeConn_frame_slicing (rt : Runtime) (c : Int) (hc : 0 < c) :
    (∀ (tunnel : Nat → WriterOutcome) (fuel : Nat) (sock : ClientSocket),
      (∀ m ∈ (PipeConn.clientToTunnel rt c tunnel fuel sock).messages,
        m.messageType = BinaryMessage ∧ 1 ≤ m.payload.length ∧
          (m.payload.length : Int) ≤ c * 1024) ∧
      ((PipeConn.clientToTunnel rt c tunnel fuel sock).messages.map (·.payload)).Sublist
        ((PipeConn.clientToTunnel rt c tunnel fuel sock).reads.filter
          (fun r => decide (0 < r.length)))) ∧
    (c * 1024 ≤ rt.intSize.maxInt → c * 1024 ≤ rt.allocLimit →
      ∀ (tunnel : Nat → WriterOutcome), (∀ k, tunnel k = .ok) →
      ∀ (data : List Byte) (fuel : Nat), data.length ⌈/⌉ (c * 1024).toNat + 2 ≤ fuel →
        (PipeConn.clientToTunnel rt c tunnel fuel [data]).ending = .readError ∧
        (PipeConn.clientToTunnel rt c tunnel fuel [data]).messages.length =
          data.length ⌈/⌉ (c * 1024).toNat ∧
        (data.length : Int) ≤
          ((PipeConn.clientToTunnel rt c tunnel fuel [data]).messages.length : Int) *
            (c * 1024) ∧
        (((PipeConn.clientToTunnel rt c tunnel fuel [data]).messages.length : Int) - 1) *
          (c * 1024) < data.length ∧
        (∀ m ∈ (PipeConn.clientToTunnel rt c tunnel fuel [data]).messages.dropLast,
          (m.payload.length : Int) = c * 1024) ∧
        ((PipeConn.clientToTunnel rt c tunnel fuel [data]).messages.map (·.payload)).flatten =
          data) := by
  refine ⟨fun tunnel fuel sock => ?_, fun hfit halloc => ?_⟩
  · unfold PipeConn.clientToTunnel
    cases hb : PipeConn.buf rt c with
    | none => simp
    | some cap =>
      have hle := buf_le rt c hc cap hb
      refine ⟨?_, clientToTunnelLoop_sublist cap tunnel fuel 0 sock⟩
      intro m hm
      obtain ⟨h1, h2, h3⟩ := clientToTunnelLoop_messages cap tunnel fuel 0 sock m hm
      exact ⟨h1, h2, by omega⟩
  · obtain ⟨cap, hdef⟩ : ∃ cap : Nat, cap = (c * 1024).toNat := ⟨_, rfl⟩
    have hcap : 0 < cap := by omega
    have hcast : c * 1024 = (cap : Int) := by omega
    have hrun : ∀ (tunnel : Nat → WriterOutcome) (fuel : Nat) (sock : ClientSocket),
        PipeConn.clientToTunnel rt c tunnel fuel sock =
          clientToTunnelLoop cap tunnel fuel 0 sock := by
      intro tunnel fuel sock
      unfold PipeConn.clientToTunnel
      rw [buf_of_fits rt c hc hfit halloc, hdef]
    simp only [hrun, ← hdef]
    rw [hcast]
    intro tunnel hok data fuel hf
    rw [Nat.ceilDiv_eq_add_pred_div] at hf ⊢
    obtain ⟨h1, h2, h3, h4⟩ :=
      clientToTunnelLoop_slices _ hcap tunnel hok data fuel hf
    have hlo := Nat.div_mul_le_self (data.length + cap - 1) cap
    have hhi : data.length + cap - 1 < (data.length + cap - 1) / cap * cap + cap :=
      Nat.lt_div_mul_add hcap
    rw [← h2] at hlo hhi
    have hA : data.length ≤
          (clientToTunnelLoop cap tunnel fuel 0 [data]).messages.length * cap ∧
        (clientToTunnelLoop cap tunnel fuel 0 [data]).messages.length * cap <
          data.length + cap := by
      generalize (clientToTunnelLoop cap tunnel fuel 0 [data]).messages.length * cap = x
        at hlo hhi ⊢
      omega
    have hx : ((clientToTunnelLoop cap tunnel fuel 0 [data]).messages.length : Int) * (cap : Int)
        = ((clientToTunnelLoop cap tunnel fuel 0 [data]).messages.length * cap : Nat) := by
      push_cast; rfl
    refine ⟨h1, h2, ?_, ?_, ?_, h4⟩
    · rw [hx]
      exact_mod_cast hA.1
    · rw [sub_mul, one_mul, hx]
      have h' : (((clientToTunnelLoop cap tunnel fuel 0 [data]).messages.length * cap : Nat) : Int)
          < ((data.length + cap : Nat) : Int) := by exact_mod_cast hA.2
      push_cast at h' ⊢
      linarith
    · intro m hm
      exact_mod_cast h3 m hm

/-- Witness of C9, amended, on 64 bits at chunk size 64: 200 KB go out as 4
messages, 10 bytes as 1. -/
theorem pipeConn_frame_slicing_witness :
    (0 : Int) < 64 ∧
    (PipeConn.clientToTunnel ⟨.bits64, 281474976710656⟩ 64 (fun _ => WriterOutcome.ok) 6
      [List.replicate (200 * 1024) 0]).messages.length = 4 ∧
    (PipeConn.clientToTunnel ⟨.bits64, 281474976710656⟩ 64 (fun _ => WriterOutcome.ok) 3
      [List.replicate 10 0]).messages.length = 1 := by
  have h := (pipeConn_frame_slicing ⟨.bits64, 281474976710656⟩ 64 (by decide)).2
    (by decide) (by decide) (fun _ => WriterOutcome.ok) (fun _ => rfl)
  refine ⟨by decide, ?_, ?_⟩
  · have h4 := (h (List.replicate (200 * 1024) 0) 6 (by
      rw [List.length_replicate, Nat.ceilDiv_eq_add_pred_div]; decide)).2.1
    rw [h4, List.length_replicate, Nat.ceilDiv_eq_add_pred_div]; decide
  · have h1 := (h (List.replicate 10 0) 3 (by
      rw [List.length_replicate, Nat.ceilDiv_eq_add_pred_div]; decide)).2.1
    rw [h1, List.length_replicate, Nat.ceilDiv_eq_add_pred_div]; decide

/-! ## The handler -/

/-- C3. On a request whose method is not CONNECT the handler answers with
status 503 and makes no other call: it does not hijack, writes nothing to the
client socket (so no 200 acknowledgement), and does not start `SetUpTunnel`. -/
theorem handler_rejects_non_connect (c : Config) (w : Hijacking) (r : Request)
    (h : r.Method ≠ MethodConnect) :
    StartProxy.handler c w r = [.writeHeader 503] ∧
    statuses (StartProxy.handler c w r) = [503] ∧
    Action.hijack ∉ StartProxy.handler c w r ∧
    clientWrites (StartProxy.handler c w r) = [] ∧
    tunnelTargets (StartProxy.handler c w r) = [] := by
  have e : StartProxy.handler c w r = [.writeHeader 503] := by
    unfold StartProxy.handler
    rw [if_pos h]; rfl
  rw [e]
  simp [statuses, clientWrites, tunnelTargets]

/-- Witness of C3: a GET request. -/
theorem handler_rejects_non_connect_witness :
    (⟨"GET", "example.com"⟩ : Request).Method ≠ MethodConnect ∧
    StartProxy.handler ⟨9090, "otc", "kaiche1.pages.dev", 64⟩ (.succeeds 7)
      ⟨"GET", "example.com"⟩ = [.writeHeader 503] :=
  ⟨by decide,
    (handler_rejects_non_connect ⟨9090, "otc", "kaiche1.pages.dev", 64⟩ (.succeeds 7)
      ⟨"GET", "example.com"⟩ (by decide)).1⟩

/-- C4. On a CONNECT request whose connection is hijacked the handler writes
to the client socket exactly once, the 39 bytes of
`HTTP/1.1 200 Connection Established\r\n\r\n`; that write is among the calls
made before `SetUpTunnel` is started and no client write follows the start;
`SetUpTunnel` is started once, with the client connection, the host of the
request unchanged and the configuration. -/
theorem handler_connect_acknowledges (c : Config) (r : Request) (client : Conn)
    (h : r.Method = MethodConnect) :
    StartProxy.handler c (.succeeds client) r =
      [.hijack, .clientWrite client connectionEstablished,
        .appendLog ("访问: " ++ r.Host), .goSetUpTunnel client r.Host c] ∧
    clientWrites (StartProxy.handler c (.succeeds client) r) = [connectionEstablished] ∧
    connectionEstablished =
      "HTTP/1.1 200 Connection Established\r\n\r\n".toUTF8.data.toList ∧
    connectionEstablished =
      [72, 84, 84, 80, 47, 49, 46, 49, 32, 50, 48, 48, 32, 67, 111, 110, 110, 101, 99, 116,
        105, 111, 110, 32, 69, 115, 116, 97, 98, 108, 105, 115, 104, 101, 100, 13, 10, 13, 10] ∧
    connectionEstablished.length = 39 ∧
    Action.clientWrite client connectionEstablished ∈
      (StartProxy.handler c (.succeeds client) r).takeWhile (fun a => !a.startsTunnel) ∧
    clientWrites
      ((StartProxy.handler c (.succeeds client) r).dropWhile (fun a => !a.startsTunnel)) = [] ∧
    tunnelTargets (StartProxy.handler c (.succeeds client) r) = [r.Host] := by
  have e : StartProxy.handler c (.succeeds client) r =
      [.hijack, .clientWrite client connectionEstablished,
        .appendLog ("访问: " ++ r.Host), .goSetUpTunnel client r.Host c] := by
    unfold StartProxy.handler
    rw [if_neg (not_not.mpr h)]
  rw [e]
  refine ⟨rfl, rfl, rfl, by decide, by decide, ?_, ?_, rfl⟩
  · simp [List.takeWhile, Action.startsTunnel]
  · simp [List.dropWhile, Action.startsTunnel, clientWrites]

/-- Witness of C4: a CONNECT request for `example.com:443`. -/
theorem handler_connect_acknowledges_witness :
    (⟨"CONNECT", "example.com:443"⟩ : Request).Method = MethodConnect ∧
    clientWrites (StartProxy.handler ⟨9090, "otc", "kaiche1.pages.dev", 64⟩ (.succeeds 7)
      ⟨"CONNECT", "example.com:443"⟩) = [connectionEstablished] ∧
    tunnelTargets (StartProxy.handler ⟨9090, "otc", "kaiche1.pages.dev", 64⟩ (.succeeds 7)
      ⟨"CONNECT", "example.com:443"⟩) = ["example.com:443"] :=
  have h := handler_connect_acknowledges ⟨9090, "otc", "kaiche1.pages.dev", 64⟩
    ⟨"CONNECT", "example.com:443"⟩ 7 (by decide)
  ⟨by decide, h.2.1, h.2.2.2.2.2.2.2⟩

/-- C8 as stated fails when `Hijack` returns an error: the handler answers
with status 503, not 500. -/
theorem handler_hijack_error_status :
    StartProxy.handler ⟨9090, "otc", "kaiche1.pages.dev", 64⟩ (.fails "hijack failed")
      ⟨"CONNECT", "example.com:443"⟩ =
      [.hijack, .appendLog "[ERROR] hijack failed", .httpError "hijack failed" 503] ∧
    statuses (StartProxy.handler ⟨9090, "otc", "kaiche1.pages.dev", 64⟩ (.fails "hijack failed")
      ⟨"CONNECT", "example.com:443"⟩) ≠ [500] := by
  decide

/-- C8, amended. On a CONNECT request whose connection cannot be detached the
handler answers with an error status carrying text: status 500 with a fixed
text when the response writer is not a hijacker, status 503 with the text of
the error (which is also logged) when `Hijack` returns an error. In neither
case does it write to the client socket or start `SetUpTunnel`. -/
theorem handler_hijack_failure (c : Config) (r : Request) (h : r.Method = MethodConnect) :
    StartProxy.handler c .unsupported r = [.httpError "不支持 Hijacking" 500] ∧
    (∀ err : String, StartProxy.handler c (.fails err) r =
      [.hijack, .appendLog ("[ERROR] " ++ err), .httpError err 503]) ∧
    (∀ w : Hijacking, (∀ client, w ≠ .succeeds client) →
      clientWrites (StartProxy.handler c w r) = [] ∧
      tunnelTargets (StartProxy.handler c w r) = []) := by
  have hn : ¬ r.Method ≠ MethodConnect := not_not.mpr h
  refine ⟨?_, ?_, ?_⟩
  · unfold StartProxy.handler
    rw [if_neg hn]; rfl
  · intro err
    unfold StartProxy.handler
    rw [if_neg hn]; rfl
  · intro w hw
    unfold StartProxy.handler
    rw [if_neg hn]
    cases w with
    | unsupported => simp [clientWrites, tunnelTargets]
    | fails err => simp [Debug, clientWrites, tunnelTargets]
    | succeeds client => exact absurd rfl (hw client)

/-- Witness of C8, amended: a response writer that is not a hijacker. -/
theorem handler_hijack_failure_witness :
    (⟨"CONNECT", "example.com:443"⟩ : Request).Method = MethodConnect ∧
    StartProxy.handler ⟨9090, "otc", "kaiche1.pages.dev", 64⟩ .unsupported
      ⟨"CONNECT", "example.com:443"⟩ = [.httpError "不支持 Hijacking" 500] :=
  ⟨by decide,
    (handler_hijack_failure ⟨9090, "otc", "kaiche1.pages.dev", 64⟩
      ⟨"CONNECT", "example.com:443"⟩ (by decide)).1⟩

/-! ## The life cycle -/

/-- C5 as stated fails: with the chunk size 0 `StartProxy` creates the server
and its listening socket is bound; no error comes back. -/
theorem startProxy_zero_chunk_listens :
    (StartProxy ⟨9090, "otc", "kaiche1.pages.dev", 0⟩ none Proc.init).activations =
      [⟨0, ⟨":9090", ⟨9090, "otc", "kaiche1.pages.dev", 0⟩, true⟩, false⟩] ∧
    (StartProxy ⟨9090, "otc", "kaiche1.pages.dev", 0⟩ none Proc.init).log =
      ["OTC友情提醒 TG 频道 @soqunla HTTP代理启动，端口: 9090"] := by
  decide

/-- C5, amended. `StartProxy` does not look at the chunk size: for every
configuration, a chunk size of 0 or less included, it allocates the stop
signal, creates the HTTP server on `:port` and starts listening, the socket
being bound whenever the operating system grants the address; replacing the
chunk size by any other value changes nothing but the configuration the
handler captures. -/
theorem startProxy_ignores_chunk (c : Config) (listen : Option String) (p : Proc) :
    (StartProxy c listen p).proxyStop = some p.chans ∧
    (StartProxy c listen p).activations =
      p.activations ++ [⟨p.chans, ⟨":" ++ toString c.Port, c, listen.isNone⟩, false⟩] ∧
    (∀ k : Int,
      (StartProxy ⟨c.Port, c.Password, c.WssHost, k⟩ listen p).proxyStop =
        (StartProxy c listen p).proxyStop ∧
      (StartProxy ⟨c.Port, c.Password, c.WssHost, k⟩ listen p).log =
        (StartProxy c listen p).log ∧
      (StartProxy ⟨c.Port, c.Password, c.WssHost, k⟩ listen p).activations.map
          (fun a => (a.stop, a.server.Addr, a.server.listening, a.returned)) =
        (StartProxy c listen p).activations.map
          (fun a => (a.stop, a.server.Addr, a.server.listening, a.returned))) := by
  refine ⟨rfl, rfl, fun k => ⟨rfl, rfl, ?_⟩⟩
  simp [StartProxy]

/-- C6 fails on the code once `StartProxy` has run. `StopProxy` is a no-op
while `proxyStop` is `nil`, and the first call after `StartProxy` closes the
channel; the second call in a row closes the same channel again, which
panics. -/
theorem stopProxy_twice_panics :
    StopProxy Proc.init = some Proc.init ∧
    (StopProxy (StartProxy ⟨9090, "otc", "kaiche1.pages.dev", 64⟩ none Proc.init)).map
      (fun p => (p.proxyStop, p.closed)) = some (some 0, [0]) ∧
    (StopProxy (StartProxy ⟨9090, "otc", "kaiche1.pages.dev", 64⟩ none Proc.init)).bind
      StopProxy = none := by
  decide

/-- C7 as stated fails: a second `StartProxy` while the first is running
replaces the stop signal, and the `StopProxy` that follows leaves the first
call blocked and its listener bound. -/
theorem startProxy_twice_orphans_first :
    (StartProxy ⟨9090, "otc", "kaiche1.pages.dev", 64⟩ none Proc.init).proxyStop = some 0 ∧
    (StartProxy ⟨9090, "otc", "kaiche1.pages.dev", 64⟩ (some "address already in use")
      (StartProxy ⟨9090, "otc", "kaiche1.pages.dev", 64⟩ none Proc.init)).proxyStop = some 1 ∧
    ((StopProxy (StartProxy ⟨9090, "otc", "kaiche1.pages.dev", 64⟩ (some "address already in use")
      (StartProxy ⟨9090, "otc", "kaiche1.pages.dev", 64⟩ none Proc.init))).map
        fun p => p.resume.activations) =
      some [⟨0, ⟨":9090", ⟨9090, "otc", "kaiche1.pages.dev", 64⟩, true⟩, false⟩,
        ⟨1, ⟨":9090", ⟨9090, "otc", "kaiche1.pages.dev", 64⟩, false⟩, true⟩] := by
  decide

/-- C7, amended. A second `StartProxy` while the first is still running yields
no error: it replaces the stop signal by a fresh channel, while the first call
keeps waiting on its own channel. A later `StopProxy` closes the new channel
only, so the second call returns, its server shut down, and the first call
stays blocked with its listener as it was. -/
theorem startProxy_twice (c₁ c₂ : Config) (l₁ l₂ : Option String) (p : Proc)
    (hp : ∀ ch ∈ p.closed, ch < p.chans) :
    (StartProxy c₁ l₁ p).proxyStop = some p.chans ∧
    (StartProxy c₂ l₂ (StartProxy c₁ l₁ p)).proxyStop = some (p.chans + 1) ∧
    (∃ q, StopProxy (StartProxy c₂ l₂ (StartProxy c₁ l₁ p)) = some q ∧
      q.proxyStop = some (p.chans + 1) ∧
      q.closed = (p.chans + 1) :: p.closed ∧
      q.resume.activations.drop p.activations.length =
        [⟨p.chans, ⟨":" ++ toString c₁.Port, c₁, l₁.isNone⟩, false⟩,
          ⟨p.chans + 1, ⟨":" ++ toString c₂.Port, c₂, false⟩, true⟩]) := by
  have h1 : ¬ (p.chans + 1) ∈ p.closed := fun h => by have := hp _ h; omega
  have h0 : ¬ p.chans ∈ p.closed := fun h => by have := hp _ h; omega
  refine ⟨rfl, rfl, ?_⟩
  refine ⟨_, by simp [StopProxy, StartProxy, h1]; rfl, rfl, rfl, ?_⟩
  simp [Proc.resume, StartProxy, Activation.resume, h0]

/-- Witness of C7, amended, on the process in which nothing has run yet. -/
theorem startProxy_twice_witness :
    (∀ ch ∈ Proc.init.closed, ch < Proc.init.chans) ∧
    (StartProxy ⟨9091, "otc", "kaiche1.pages.dev", 64⟩ none
      (StartProxy ⟨9090, "otc", "kaiche1.pages.dev", 64⟩ none Proc.init)).proxyStop =
        some (Proc.init.chans + 1) :=
  ⟨by decide,
    (startProxy_twice ⟨9090, "otc", "kaiche1.pages.dev", 64⟩
      ⟨9091, "otc", "kaiche1.pages.dev", 64⟩ none none Proc.init (by decide)).2.1⟩

/-! ## The dialer -/

/-- C10. Postcondition of `utlsDialTLSContext` over every outcome. If the TCP
dial fails it returns that error and no connection, having made no other call.
If the handshake fails it closes the TCP connection it opened and returns the
error of the handshake and no connection, having dialled once and shaken hands
once. If the handshake succeeds it returns, with no error, the connection that
`utls.UClient` made over the dialled TCP connection for the host of `addr`
with the randomized hello, secured by the handshake and with the zero time as
deadline, whether or not the context had a deadline; the calls are the dial,
`UClient`, `SetDeadline` with the deadline of the context when it has one, the
handshake, and `SetDeadline` with the zero time, and the TCP connection is not
closed. -/
theorem utlsDialTLSContext_post (w : DialWorld) (network addr : String) :
    (∀ err, w.dial = .fails err →
      utlsDialTLSContext w network addr = ⟨none, some err, [.dialContext network addr]⟩) ∧
    (∀ tcp err, w.dial = .connected tcp → w.handshake = some err →
      (utlsDialTLSContext w network addr).conn = none ∧
      (utlsDialTLSContext w network addr).err = some err ∧
      (utlsDialTLSContext w network addr).actions =
        [.dialContext network addr, .uClient tcp (w.splitHost.getD addr) .HelloRandomized] ++
          (w.ctxDeadline.map DialAction.setDeadline).toList ++ [.handshake, .closeTCP tcp] ∧
      (utlsDialTLSContext w network addr).actions.getLast? = some (.closeTCP tcp) ∧
      (utlsDialTLSContext w network addr).actions.count (.dialContext network addr) = 1 ∧
      (utlsDialTLSContext w network addr).actions.count .handshake = 1) ∧
    (∀ tcp, w.dial = .connected tcp → w.handshake = none →
      (utlsDialTLSContext w network addr).conn =
        some ⟨tcp, w.splitHost.getD addr, .HelloRandomized, true, .zero⟩ ∧
      (utlsDialTLSContext w network addr).err = none ∧
      (utlsDialTLSContext w network addr).actions =
        [.dialContext network addr, .uClient tcp (w.splitHost.getD addr) .HelloRandomized] ++
          (w.ctxDeadline.map DialAction.setDeadline).toList ++
            [.handshake, .setDeadline .zero] ∧
      (utlsDialTLSContext w network addr).actions.getLast? = some (.setDeadline .zero) ∧
      (utlsDialTLSContext w network addr).actions.count .handshake = 1 ∧
      DialAction.closeTCP tcp ∉ (utlsDialTLSContext w network addr).actions) := by
  obtain ⟨dial, splitHost, ctxDeadline, handshake⟩ := w
  refine ⟨?_, ?_, ?_⟩
  · intro err h
    simp only at h
    subst h
    simp [utlsDialTLSContext]
  · intro tcp err h hh
    simp only at h hh
    subst h hh
    cases ctxDeadline <;> cases splitHost <;> simp [utlsDialTLSContext, List.count_cons]
  · intro tcp h hh
    simp only at h hh
    subst h hh
    cases ctxDeadline <;> cases splitHost <;>
      simp [utlsDialTLSContext, UClient, UConn.SetDeadline, UConn.Handshake, List.count_cons]

/-- Witness of C10: a dial and a handshake that succeed under a deadline. -/
theorem utlsDialTLSContext_post_witness :
    (⟨.connected 3, some "kaiche1.pages.dev", some (.instant 30), none⟩ : DialWorld).dial =
      .connected 3 ∧
    (⟨.connected 3, some "kaiche1.pages.dev", some (.instant 30), none⟩ : DialWorld).handshake =
      none ∧
    (utlsDialTLSContext ⟨.connected 3, some "kaiche1.pages.dev", some (.instant 30), none⟩
      "tcp" "kaiche1.pages.dev:443").conn =
        some ⟨3, "kaiche1.pages.dev", .HelloRandomized, true, .zero⟩ :=
  ⟨rfl, rfl,
    ((utlsDialTLSContext_post ⟨.connected 3, some "kaiche1.pages.dev", some (.instant 30), none⟩
      "tcp" "kaiche1.pages.dev:443").2.2 3 rfl rfl).1⟩

end GoWSProxy
